import Mathlib

/-!
Shallow embedding of the structured-value capture core of the `log` crate
(`src/kv/value/...`): the `Primitive`/`Inner` tagged union, the `Visitor`
dispatch, the `Fill`/`Slot` one-shot deferred capture, the cast/coercion
layer (`to_u8` .. `to_borrowed_str`, `downcast_ref`) and the
`Debug`/`Display` formatting adapters.

Machine-integer conventions: `uN` values are modelled as `Nat` (with range
hypotheses `< 2^N` where a claim depends on them), `iN` values as `Int`.
`usize`/`isize` are modelled as 64-bit, as on the crate's mainstream
targets.  Rust's integer `as` casts are modelled explicitly: unsigned
narrowing is `% 2^N`, signed wrapping is `Int.bmod`, and the
float-to-integer `as` casts are saturating truncation (Rust semantics).

Finite `f64` values are modelled by their exact rational value (`Rat`);
every finite double is an exact dyadic rational, so this is a superset
model (NaN and the infinities have no counterpart; the claims under
consideration quantify over finite/representable values only).  Finite
`f32` values are modelled by the structure `F32` (sign-carrying mantissa
and exponent with the binary32 bounds), and the `f64 -> f32` `as` cast by
round-to-nearest-even (`roundF32` below).
-/

namespace LogKv

/-! ## Rust scalar `as`-cast models -/

/-- Rust `x as uN` for unsigned `x` (truncating narrowing). -/
def natAsU (bits : Nat) (x : Nat) : Nat := x % 2 ^ bits

/-- Rust `x as iN` for a signed source (two's-complement wrap).
`Int.bmod x (2^bits)` lands in `[-2^(bits-1), 2^(bits-1))`, exactly the
two's-complement reinterpretation of the low `bits` bits. -/
def intAsI (bits : Nat) (x : Int) : Int := Int.bmod x (2 ^ bits)

/-- Rust `x as u64` for `x : i64` (reinterpret two's complement). -/
def i64_as_u64 (x : Int) : Nat := (x.emod (2 ^ 64)).toNat

/-- Rust `x as i64` for `x : u64` (reinterpret two's complement). -/
def u64_as_i64 (x : Nat) : Int := Int.bmod x (2 ^ 64)

/-- Truncation of a rational toward zero (`Int.tdiv` is T-division:
`Int.tdiv (-19) 10 = -1`, unlike this toolchain's `Int./`, which is
Euclidean and would floor negative values). -/
def ratTrunc (q : Rat) : Int := q.num.tdiv (q.den : Int)

/-- Rust `f as u64` for finite `f : f64`: truncate toward zero and
saturate into `[0, 2^64 - 1]`. -/
def f64_as_u64 (q : Rat) : Nat := (max 0 (min (ratTrunc q) (2 ^ 64 - 1))).toNat

/-- Rust `f as i64` for finite `f : f64`: truncate toward zero and
saturate into `[-2^63, 2^63 - 1]`. -/
def f64_as_i64 (q : Rat) : Int := max (-(2 ^ 63)) (min (ratTrunc q) (2 ^ 63 - 1))

/-! ### Round-to-nearest-even and the `f64 -> f32` / int -> float casts -/

/-- Round a rational to the nearest integer, ties to even. -/
def rneInt (q : Rat) : Int :=
  let f := ⌊q⌋
  if q - f < 1 / 2 then f
  else if (1 : Rat) / 2 < q - f then f + 1
  else if 2 ∣ f then f else f + 1

/-- For `q > 0`, the unique `E` with `2^(E-1) ≤ q < 2^E` (binade index).
Computed from the bit sizes of numerator and denominator, then corrected
by one comparison. -/
def ratExp (q : Rat) : Int :=
  let g : Int := (Nat.log2 q.num.toNat : Int) - (Nat.log2 q.den : Int)
  if q < 2 ^ g then g else g + 1

/-- Round `q` to the nearest floating-point value with a `prec`-bit
significand and minimum (subnormal) exponent `emin`, ties to even.
Overflow to infinity is not modelled (no claim exercises it). -/
def roundFP (prec : Nat) (emin : Int) (q : Rat) : Rat :=
  if q = 0 then 0
  else
    let e := max emin (ratExp |q| - prec)
    (rneInt (q * 2 ^ (-e)) : Rat) * 2 ^ e

/-- Rust `f as f32` for finite `f : f64` (binary32: 24-bit significand,
minimum exponent `-149`). -/
def roundF32 (q : Rat) : Rat := roundFP 24 (-149) q

/-- Rust `x as f64` for 64-bit integers (binary64: 53-bit significand,
minimum exponent `-1074`); rounds when `|x| > 2^53`. -/
def roundF64 (q : Rat) : Rat := roundFP 53 (-1074) q

/-- Rust `x as f64` for `x : u64`. -/
def u64_as_f64 (x : Nat) : Rat := roundF64 (x : Rat)

/-- Rust `x as f64` for `x : i64`. -/
def i64_as_f64 (x : Int) : Rat := roundF64 (x : Rat)

/-- A finite `f32` value: `m * 2^e` with a 24-bit significand,
subnormal exponent floor `-149` and top exponent `104`
(the largest finite f32 is `(2^24 - 1) * 2^104`). -/
structure F32 where
  m : Int
  e : Int
  hm : m.natAbs < 2 ^ 24
  he₁ : -149 ≤ e
  he₂ : e ≤ 104

/-- The exact rational value of a finite `f32` (also the value of the
exact Rust widening cast `x as f64`). -/
def F32.toRat (x : F32) : Rat := (x.m : Rat) * 2 ^ x.e

/-! ## `Primitive` (src/kv/value/internal/mod.rs) -/

/-- `fmt::Arguments` is modelled by the text it formats to (its
`Debug`/`Display` output ignores formatter width/fill flags). -/
abbrev FmtArgs := String

/-- A captured primitive value (`Primitive<'v>` in internal/mod.rs):
`Signed(i64) | Unsigned(u64) | Float(f64) | Bool | Char | Str(&'v str) |
Fmt(fmt::Arguments) | None`. -/
inductive Primitive where
  | Signed (v : Int)
  | Unsigned (v : Nat)
  | Float (v : Rat)
  | BoolP (v : Bool)
  | CharP (v : Char)
  | Str (v : String)
  | Fmt (v : FmtArgs)
  | NoneP
  deriving DecidableEq

/-! ## `Cast` and the `Primitive::into_*` coercions (cast/mod.rs) -/

/-- `Cast<'v>`: either a primitive or an owned string collected from a
short-lived `str` visit (the `std` feature's `Cast::String`). -/
inductive Cast where
  | prim (p : Primitive)
  | string (s : String)
  deriving DecidableEq

/-- `Cast::into_primitive`. -/
def Cast.into_primitive : Cast → Primitive
  | .prim p => p
  | .string _ => .NoneP

/-- `Primitive::into_borrowed_str`: `Some` exactly on `Str`. -/
def Primitive.into_borrowed_str : Primitive → Option String
  | .Str s => some s
  | _ => none

/-- `Primitive::into_u64`: identity on `Unsigned`, `as u64` on `Signed`
and `Float`, `None` otherwise. -/
def Primitive.into_u64 : Primitive → Option Nat
  | .Unsigned v => some v
  | .Signed v => some (i64_as_u64 v)
  | .Float v => some (f64_as_u64 v)
  | _ => none

/-- `Primitive::into_i64`. -/
def Primitive.into_i64 : Primitive → Option Int
  | .Signed v => some v
  | .Unsigned v => some (u64_as_i64 v)
  | .Float v => some (f64_as_i64 v)
  | _ => none

/-- `Primitive::into_f64`. -/
def Primitive.into_f64 : Primitive → Option Rat
  | .Float v => some v
  | .Unsigned v => some (u64_as_f64 v)
  | .Signed v => some (i64_as_f64 v)
  | _ => none

/-- `Primitive::into_char`: `Some` exactly on `Char`. -/
def Primitive.into_char : Primitive → Option Char
  | .CharP v => some v
  | _ => none

/-- `Primitive::into_bool`: `Some` exactly on `Bool`. -/
def Primitive.into_bool : Primitive → Option Bool
  | .BoolP v => some v
  | _ => none

end LogKv

namespace LogKv

/-! ## Type identities and erased values

`TypeId` models `std::any::TypeId` for the closed set of types the
build-generated table in `cast/primitive.rs` knows about (the 15 primitive
source types and the `Option` of each), plus an open family `tCustom n`
standing for all other `'static` types. -/

inductive TypeId where
  | tUsize | tU8 | tU16 | tU32 | tU64
  | tIsize | tI8 | tI16 | tI32 | tI64
  | tF32 | tF64 | tChar | tBool | tStr
  | tOptUsize | tOptU8 | tOptU16 | tOptU32 | tOptU64
  | tOptIsize | tOptI8 | tOptI16 | tOptI32 | tOptI64
  | tOptF32 | tOptF64 | tOptChar | tOptBool | tOptStr
  | tCustom (n : Nat)
  deriving DecidableEq

/-- Formatter state the claims care about: the flags a `fmt::Formatter`
passes through to the formatted value (a simplified model — width, fill
character and the `#` flag). -/
structure FmtFlags where
  width : Nat := 0
  fill : Char := ' '
  alternate : Bool := false

/-- What a `fmt::Debug`/`fmt::Display` implementation is, extensionally:
a function from the formatter's flags to the text it writes. -/
abbrev Renderer := FmtFlags → String

/-- A concrete Rust value of some `'static` type, as handed to
`capture_debug`/`capture_display`/`from_debug`/`from_display`.  A
`custom` value carries its type's identity and its `Debug`/`Display`
renderers; the primitive-typed variants carry their payloads. -/
inductive AnyVal where
  | vUsize (n : Nat) | vU8 (n : Nat) | vU16 (n : Nat) | vU32 (n : Nat) | vU64 (n : Nat)
  | vIsize (i : Int) | vI8 (i : Int) | vI16 (i : Int) | vI32 (i : Int) | vI64 (i : Int)
  | vF32 (x : F32) | vF64 (q : Rat) | vChar (c : Char) | vBool (b : Bool) | vStr (s : String)
  | vOptUsize (o : Option Nat) | vOptU8 (o : Option Nat) | vOptU16 (o : Option Nat)
  | vOptU32 (o : Option Nat) | vOptU64 (o : Option Nat)
  | vOptIsize (o : Option Int) | vOptI8 (o : Option Int) | vOptI16 (o : Option Int)
  | vOptI32 (o : Option Int) | vOptI64 (o : Option Int)
  | vOptF32 (o : Option F32) | vOptF64 (o : Option Rat) | vOptChar (o : Option Char)
  | vOptBool (o : Option Bool) | vOptStr (o : Option String)
  | custom (t : Nat) (d : Renderer) (p : Renderer)

/-- `value.type_id()` (`TypeId::of::<T>()` for the value's concrete type). -/
def AnyVal.typeId : AnyVal → TypeId
  | .vUsize _ => .tUsize | .vU8 _ => .tU8 | .vU16 _ => .tU16 | .vU32 _ => .tU32
  | .vU64 _ => .tU64
  | .vIsize _ => .tIsize | .vI8 _ => .tI8 | .vI16 _ => .tI16 | .vI32 _ => .tI32
  | .vI64 _ => .tI64
  | .vF32 _ => .tF32 | .vF64 _ => .tF64 | .vChar _ => .tChar | .vBool _ => .tBool
  | .vStr _ => .tStr
  | .vOptUsize _ => .tOptUsize | .vOptU8 _ => .tOptU8 | .vOptU16 _ => .tOptU16
  | .vOptU32 _ => .tOptU32 | .vOptU64 _ => .tOptU64
  | .vOptIsize _ => .tOptIsize | .vOptI8 _ => .tOptI8 | .vOptI16 _ => .tOptI16
  | .vOptI32 _ => .tOptI32 | .vOptI64 _ => .tOptI64
  | .vOptF32 _ => .tOptF32 | .vOptF64 _ => .tOptF64 | .vOptChar _ => .tOptChar
  | .vOptBool _ => .tOptBool | .vOptStr _ => .tOptStr
  | .custom t _ _ => .tCustom t

/-- `from_any` (`cast/primitive.rs`): look the value's type id up in the
build-generated 30-entry sorted table and, on a hit, convert to the
widened `Primitive` (for `Option` entries: `Some -> Primitive::from`,
`None -> Primitive::None`).  The binary search over the pre-sorted
`TYPE_IDS` array is an implementation detail of this type-indexed lookup;
any other `'static` type misses the table. -/
def from_any : AnyVal → Option Primitive
  | .vUsize n => some (.Unsigned n)
  | .vU8 n => some (.Unsigned n)
  | .vU16 n => some (.Unsigned n)
  | .vU32 n => some (.Unsigned n)
  | .vU64 n => some (.Unsigned n)
  | .vIsize i => some (.Signed i)
  | .vI8 i => some (.Signed i)
  | .vI16 i => some (.Signed i)
  | .vI32 i => some (.Signed i)
  | .vI64 i => some (.Signed i)
  | .vF32 x => some (.Float x.toRat)
  | .vF64 q => some (.Float q)
  | .vChar c => some (.CharP c)
  | .vBool b => some (.BoolP b)
  | .vStr s => some (.Str s)
  | .vOptUsize o => some (o.elim .NoneP .Unsigned)
  | .vOptU8 o => some (o.elim .NoneP .Unsigned)
  | .vOptU16 o => some (o.elim .NoneP .Unsigned)
  | .vOptU32 o => some (o.elim .NoneP .Unsigned)
  | .vOptU64 o => some (o.elim .NoneP .Unsigned)
  | .vOptIsize o => some (o.elim .NoneP .Signed)
  | .vOptI8 o => some (o.elim .NoneP .Signed)
  | .vOptI16 o => some (o.elim .NoneP .Signed)
  | .vOptI32 o => some (o.elim .NoneP .Signed)
  | .vOptI64 o => some (o.elim .NoneP .Signed)
  | .vOptF32 o => some (o.elim .NoneP (fun x => .Float x.toRat))
  | .vOptF64 o => some (o.elim .NoneP .Float)
  | .vOptChar o => some (o.elim .NoneP .CharP)
  | .vOptBool o => some (o.elim .NoneP .BoolP)
  | .vOptStr o => some (o.elim .NoneP .Str)
  | .custom _ _ _ => none

/-! ### Standard-library renderers (simplified)

The claims never compare primitive text output, so the number/string
renderers below are deliberately plain (decimal digits, left padding, no
escape handling); what matters is that `custom` values render through
their own carried `Debug`/`Display` functions with the flags intact. -/

/-- `Formatter` padding to the requested width. -/
def padTo (fl : FmtFlags) (s : String) : String :=
  if s.length < fl.width then ⟨List.replicate (fl.width - s.length) fl.fill⟩ ++ s else s

/-- The `Debug` implementation of the value's own type. -/
def AnyVal.debugRender : AnyVal → Renderer
  | .vUsize n | .vU8 n | .vU16 n | .vU32 n | .vU64 n => fun fl => padTo fl (toString n)
  | .vIsize i | .vI8 i | .vI16 i | .vI32 i | .vI64 i => fun fl => padTo fl (toString i)
  | .vF32 x => fun fl => padTo fl (toString x.toRat)
  | .vF64 q => fun fl => padTo fl (toString q)
  | .vChar c => fun _ => "'" ++ String.mk [c] ++ "'"
  | .vBool b => fun fl => padTo fl (toString b)
  | .vStr s => fun _ => "\"" ++ s ++ "\""
  | .vOptUsize o | .vOptU8 o | .vOptU16 o | .vOptU32 o | .vOptU64 o =>
    fun _ => o.elim "None" (fun n => "Some(" ++ toString n ++ ")")
  | .vOptIsize o | .vOptI8 o | .vOptI16 o | .vOptI32 o | .vOptI64 o =>
    fun _ => o.elim "None" (fun i => "Some(" ++ toString i ++ ")")
  | .vOptF32 o => fun _ => o.elim "None" (fun x => "Some(" ++ toString x.toRat ++ ")")
  | .vOptF64 o => fun _ => o.elim "None" (fun q => "Some(" ++ toString q ++ ")")
  | .vOptChar o => fun _ => o.elim "None" (fun c => "Some('" ++ String.mk [c] ++ "')")
  | .vOptBool o => fun _ => o.elim "None" (fun b => "Some(" ++ toString b ++ ")")
  | .vOptStr o => fun _ => o.elim "None" (fun s => "Some(\"" ++ s ++ "\")")
  | .custom _ d _ => d

/-- The `Display` implementation of the value's own type (for types
without one, e.g. `Option`, this is never reachable through the real
constructors; totality here is harmless). -/
def AnyVal.displayRender : AnyVal → Renderer
  | .vStr s => fun fl => padTo fl s
  | .vChar c => fun _ => String.mk [c]
  | .custom _ _ p => p
  | v => v.debugRender

end LogKv

namespace LogKv

/-! ## `Inner`, `Fill` and the visitor contract

`Inner<'v>` (internal/mod.rs) is the erasure boundary:
`Primitive | Fill(&dyn Fill) | Debug(&dyn fmt::Debug) |
Display(&dyn fmt::Display)`.  Following the downcast support in
`cast/mod.rs` (`Inner::Debug { type_id, value }`), the `Debug`/`Display`
arms carry an optional recorded `TypeId` next to the erased value.
The `Error`/`Sval` arms (behind the `std`/`kv_unstable_sval` features)
play no part in any claim and are omitted.

A `Fill` implementation is arbitrary user code that talks to the library
only through `Slot::fill_*`; it is modelled by the sequence of `fill_*`
calls it makes (each stopping the sequence on an error result, the
ubiquitous `?` convention) plus the `Result` it returns if it runs to the
end.  Payloads of `fill_any` are modelled by non-`Fill` values (no claim
exercises a deferred fill nested inside another). -/

/-- A non-`Fill` captured value (what a `fill_any` payload converts to). -/
inductive BasicInner where
  | prim (p : Primitive)
  | dbg (tid : Option TypeId) (v : AnyVal)
  | disp (tid : Option TypeId) (v : AnyVal)

/-- One `fill_*` call made by a `Fill` implementation. -/
inductive FillArg where
  | any (b : BasicInner)
  | fill_debug (r : Renderer)
  | fill_display (r : Renderer)

/-- `Inner<'v>`. -/
inductive Inner where
  | prim (p : Primitive)
  | fill (calls : List FillArg) (ret : Bool)
  | dbg (tid : Option TypeId) (v : AnyVal)
  | disp (tid : Option TypeId) (v : AnyVal)

/-- What one dynamic operation of this subsystem can come to:
success, a propagated formatting error, or a panic
(from `Slot`'s already-filled assertion). -/
inductive Outcome where
  | ok
  | err
  | panic
  deriving DecidableEq

/-- The internal serialization contract (`Visitor<'v>`, internal/mod.rs),
as a record of methods over a visitor state `σ`.  Each method returns the
new state and whether it succeeded (`Result<(), Error>`).  The trait's
default bodies (`display` delegating to `debug`, `borrowed_str`
forwarding to `str`) are written out in each concrete visitor record that
does not override them. -/
structure Visitor (σ : Type) where
  debug : σ → Renderer → σ × Bool
  display : σ → Renderer → σ × Bool
  u64 : σ → Nat → σ × Bool
  i64 : σ → Int → σ × Bool
  f64 : σ → Rat → σ × Bool
  bool : σ → Bool → σ × Bool
  char : σ → Char → σ × Bool
  str : σ → String → σ × Bool
  borrowed_str : σ → String → σ × Bool
  none : σ → σ × Bool

/-- Lift a visitor method's `Result` into an `Outcome`. -/
def liftV {σ : Type} (r : σ × Bool) : σ × Outcome :=
  (r.1, if r.2 then .ok else .err)

/-- `Primitive::visit` (internal/mod.rs): `Signed -> i64`,
`Unsigned -> u64`, `Float -> f64`, `Bool -> bool`, `Char -> char`,
`Str -> borrowed_str`, `Fmt -> debug`, `None -> none`. -/
def Primitive.visit {σ : Type} (p : Primitive) (vis : Visitor σ) (s : σ) : σ × Outcome :=
  match p with
  | .Signed v => liftV (vis.i64 s v)
  | .Unsigned v => liftV (vis.u64 s v)
  | .Float v => liftV (vis.f64 s v)
  | .BoolP v => liftV (vis.bool s v)
  | .CharP v => liftV (vis.char s v)
  | .Str v => liftV (vis.borrowed_str s v)
  | .Fmt v => liftV (vis.debug s (fun _ => v))
  | .NoneP => liftV (vis.none s)

/-- Dispatch of a non-`Fill` value: the `Primitive`/`Debug`/`Display`
arms of `Inner::visit`. -/
def BasicInner.visit {σ : Type} (b : BasicInner) (vis : Visitor σ) (s : σ) : σ × Outcome :=
  match b with
  | .prim p => p.visit vis s
  | .dbg _ v => liftV (vis.debug s v.debugRender)
  | .disp _ v => liftV (vis.display s v.displayRender)

/-! ### `Slot` (src/kv/value/mod.rs)

A `Slot` borrows the visitor and carries the one-shot `filled` flag;
in state-passing style an operation on a slot maps the flag and the
visitor state to the new flag, the new state and an `Outcome`. -/

/-- `Slot::fill`: `assert!(!self.filled, "the slot has already been
filled"); self.filled = true; f(self.visitor)`.  The failed assertion is
the `panic` outcome. -/
def Slot.fill {σ : Type} (filled : Bool) (f : σ → σ × Outcome) (s : σ) :
    Bool × σ × Outcome :=
  if filled then (filled, s, .panic)
  else (true, f s)

/-- The single visitor call a `fill_*` request forwards
(`fill_any`: `value.into().inner.visit(visitor)`;
`fill_debug`: `visitor.debug(&value)`;
`fill_display`: `visitor.display(&value)`). -/
def FillArg.run {σ : Type} (c : FillArg) (vis : Visitor σ) (s : σ) : σ × Outcome :=
  match c with
  | .any b => b.visit vis s
  | .fill_debug r => liftV (vis.debug s r)
  | .fill_display r => liftV (vis.display s r)

/-- `Slot::fill_any` (mod.rs). -/
def Slot.fill_any {σ : Type} (b : BasicInner) (vis : Visitor σ) (filled : Bool) (s : σ) :
    Bool × σ × Outcome :=
  Slot.fill filled (FillArg.run (.any b) vis) s

/-- `Slot::fill_debug` (fmt.rs). -/
def Slot.fill_debug {σ : Type} (r : Renderer) (vis : Visitor σ) (filled : Bool) (s : σ) :
    Bool × σ × Outcome :=
  Slot.fill filled (FillArg.run (.fill_debug r) vis) s

/-- `Slot::fill_display` (fmt.rs). -/
def Slot.fill_display {σ : Type} (r : Renderer) (vis : Visitor σ) (filled : Bool) (s : σ) :
    Bool × σ × Outcome :=
  Slot.fill filled (FillArg.run (.fill_display r) vis) s

/-- Run a `Fill` implementation's calls against a slot: each call goes
through `Slot.fill` (so a second call on the same slot panics); on an
error result the implementation stops and propagates it (`?`); if it runs
to the end it returns its own final `Result` (`ret`). -/
def runFill {σ : Type} (calls : List FillArg) (ret : Bool) (vis : Visitor σ)
    (filled : Bool) (s : σ) : σ × Outcome :=
  match calls with
  | [] => (s, if ret then .ok else .err)
  | c :: rest =>
    match Slot.fill filled (FillArg.run c vis) s with
    | (filled', s', .ok) => runFill rest ret vis filled' s'
    | (_, s', o) => (s', o)

/-- `Inner::visit` (internal/mod.rs): single dispatch over the tag; the
`Fill` arm invokes the fill callback with a freshly constructed slot
(`value.fill(&mut Slot::new(visitor))` — `filled` starts `false`). -/
def Inner.visit {σ : Type} (i : Inner) (vis : Visitor σ) (s : σ) : σ × Outcome :=
  match i with
  | .prim p => p.visit vis s
  | .dbg _ v => liftV (vis.debug s v.debugRender)
  | .disp _ v => liftV (vis.display s v.displayRender)
  | .fill calls ret => runFill calls ret vis false s

end LogKv

namespace LogKv

/-! ## `Value` and its constructors -/

/-- `Value<'v>` (src/kv/value/mod.rs): the public borrowed handle,
wrapping exactly one `Inner`. -/
structure Value where
  inner : Inner

/-- Result of an operation that, in Rust, can panic. -/
inductive PRes (α : Type) where
  | res (a : α)
  | panic
  deriving DecidableEq

/-- `Value::from_primitive` / the `From<u8> for Primitive` widening
(`v as u64`). -/
def Value.from_u8 (n : Nat) : Value := ⟨.prim (.Unsigned n)⟩

/-- `From<u16>`: `Primitive::Unsigned(v as u64)`. -/
def Value.from_u16 (n : Nat) : Value := ⟨.prim (.Unsigned n)⟩

/-- `From<u32>`: `Primitive::Unsigned(v as u64)`. -/
def Value.from_u32 (n : Nat) : Value := ⟨.prim (.Unsigned n)⟩

/-- `From<u64>`: `Primitive::Unsigned(v)`. -/
def Value.from_u64 (n : Nat) : Value := ⟨.prim (.Unsigned n)⟩

/-- `From<usize>`: `Primitive::Unsigned(v as u64)` (64-bit target). -/
def Value.from_usize (n : Nat) : Value := ⟨.prim (.Unsigned n)⟩

/-- `From<i8>`: `Primitive::Signed(v as i64)`. -/
def Value.from_i8 (i : Int) : Value := ⟨.prim (.Signed i)⟩

/-- `From<i16>`: `Primitive::Signed(v as i64)`. -/
def Value.from_i16 (i : Int) : Value := ⟨.prim (.Signed i)⟩

/-- `From<i32>`: `Primitive::Signed(v as i64)`. -/
def Value.from_i32 (i : Int) : Value := ⟨.prim (.Signed i)⟩

/-- `From<i64>`: `Primitive::Signed(v)`. -/
def Value.from_i64 (i : Int) : Value := ⟨.prim (.Signed i)⟩

/-- `From<isize>`: `Primitive::Signed(v as i64)` (64-bit target). -/
def Value.from_isize (i : Int) : Value := ⟨.prim (.Signed i)⟩

/-- `From<f32>`: `Primitive::Float(v as f64)` — the widening is exact. -/
def Value.from_f32 (x : F32) : Value := ⟨.prim (.Float x.toRat)⟩

/-- `From<f64>`: `Primitive::Float(v)`. -/
def Value.from_f64 (q : Rat) : Value := ⟨.prim (.Float q)⟩

/-- `From<bool>`: `Primitive::Bool(v)`. -/
def Value.from_bool (b : Bool) : Value := ⟨.prim (.BoolP b)⟩

/-- `From<char>`: `Primitive::Char(v)`. -/
def Value.from_char (c : Char) : Value := ⟨.prim (.CharP c)⟩

/-- `From<&'v str>`: `Primitive::Str(v)`. -/
def Value.from_str (s : String) : Value := ⟨.prim (.Str s)⟩

/-- `From<fmt::Arguments>`: `Primitive::Fmt(v)`. -/
def Value.from_fmt_args (s : FmtArgs) : Value := ⟨.prim (.Fmt s)⟩

/-- `Value::from_fill`: wrap a `Fill` implementation. -/
def Value.from_fill (calls : List FillArg) (ret : Bool) : Value := ⟨.fill calls ret⟩

/-- The `ToValue` conversion of `Option<T>` (impls.rs):
`Some(ref value) => value.to_value()`, `None => Primitive::None` (a value
that visits via `visitor.none()`), given `T`'s own conversion `f`. -/
def Value.from_option {α : Type} (f : α → Value) : Option α → Value
  | some x => f x
  | none => ⟨.prim .NoneP⟩

/-- `Value::from_debug` (fmt.rs): wrap the borrow tagged `Debug`,
recording no type identity. -/
def Value.from_debug (v : AnyVal) : Value := ⟨.dbg none v⟩

/-- `Value::from_display` (fmt.rs): wrap the borrow tagged `Display`,
recording no type identity. -/
def Value.from_display (v : AnyVal) : Value := ⟨.disp none v⟩

/-- `cast::try_from_primitive`: capture a primitive from a generic
`'static` value via `from_any`, keeping it un-erased on a table hit. -/
def try_from_primitive (v : AnyVal) : Option Value :=
  (from_any v).map (fun p => ⟨.prim p⟩)

/-- `Value::capture_debug` (fmt.rs):
`cast::try_from_primitive(value).unwrap_or(Value { inner: Inner::Debug(..) })`.
Modelled from the spec: the fallback `Debug` arm records the captured
type's identity token (`type_id: Some(TypeId::of::<T>())`); the snapshot's
fmt.rs predates the downcast support whose `Inner::Debug { type_id, .. }`
shape `downcast_ref` in cast/mod.rs requires, and the spec states that
the `capture_*` constructors record the token. -/
def Value.capture_debug (v : AnyVal) : Value :=
  (try_from_primitive v).getD ⟨.dbg (some v.typeId) v⟩

/-- `Value::capture_display` (fmt.rs), with the identity token recorded in
the fallback arm as for `capture_debug` (modelled from the spec). -/
def Value.capture_display (v : AnyVal) : Value :=
  (try_from_primitive v).getD ⟨.disp (some v.typeId) v⟩

/-- `Value::downcast_ref::<T>` (cast/mod.rs): compare the requested
type's identity with the recorded one; a hit returns the stored value,
anything else is `None`. -/
def Value.downcast_ref (t : TypeId) (v : Value) : Option AnyVal :=
  match v.inner with
  | .dbg (some tid) w => if tid = t then some w else none
  | .disp (some tid) w => if tid = t then some w else none
  | _ => none

/-- `Value::is::<T>`. -/
def Value.is (t : TypeId) (v : Value) : Bool := (v.downcast_ref t).isSome

/-! ## The cast visitor and the `to_*` coercions (cast/mod.rs) -/

/-- `CastVisitor`: each scalar method records the scalar as a
`Cast::Primitive`; `str` collects an owned string (`Cast::String`, the
`std` arm); `borrowed_str` keeps the borrow as `Primitive::Str`; `debug`
is a no-op `Ok(())`; `display` is the trait default (delegates to `debug`
through a formatting-arguments wrapper, hence also a state no-op here). -/
def castVisitor : Visitor Cast where
  debug := fun c _ => (c, true)
  display := fun c _ => (c, true)
  u64 := fun _ v => (.prim (.Unsigned v), true)
  i64 := fun _ v => (.prim (.Signed v), true)
  f64 := fun _ v => (.prim (.Float v), true)
  bool := fun _ v => (.prim (.BoolP v), true)
  char := fun _ v => (.prim (.CharP v), true)
  str := fun _ s => (.string s, true)
  borrowed_str := fun _ s => (.prim (.Str s), true)
  none := fun _ => (.prim .NoneP, true)

/-- `Inner::cast`: fast path for `Inner::Primitive`; otherwise run the
cast visitor over the value, starting from `Cast::Primitive(None)`.  The
code discards the visit's `Result` (`let _ = self.visit(..)`) but a panic
raised by a misbehaving `Fill` would propagate, so the outcome is kept
alongside the `Cast`. -/
def Inner.cast (i : Inner) : Cast × Outcome :=
  match i with
  | .prim p => (.prim p, .ok)
  | i => Inner.visit i castVisitor (.prim .NoneP)

/-- Whether `Inner::cast` takes the visiting branch (`true`) or the
`Inner::Primitive` fast path (`false`, no visitor ever runs — in
particular no formatting pass). -/
def Inner.castVisited : Inner → Bool
  | .prim _ => false
  | _ => true

/-- Apply a primitive extraction after `cast`, surfacing a panic and
discarding the visit's error result exactly as the code does. -/
def Value.coerce {α : Type} (f : Primitive → Option α) (v : Value) : PRes (Option α) :=
  match v.inner.cast with
  | (_, .panic) => .panic
  | (c, _) => .res (f c.into_primitive)

/-- `Value::to_usize`: `into_u64` then `v as usize` (identity on the
64-bit target). -/
def Value.to_usize (v : Value) : PRes (Option Nat) :=
  v.coerce (fun p => p.into_u64)

/-- `Value::to_u8`: `into_u64` then `v as u8`. -/
def Value.to_u8 (v : Value) : PRes (Option Nat) :=
  v.coerce (fun p => (p.into_u64).map (natAsU 8))

/-- `Value::to_u16`: `into_u64` then `v as u16`. -/
def Value.to_u16 (v : Value) : PRes (Option Nat) :=
  v.coerce (fun p => (p.into_u64).map (natAsU 16))

/-- `Value::to_u32`: `into_u64` then `v as u32`. -/
def Value.to_u32 (v : Value) : PRes (Option Nat) :=
  v.coerce (fun p => (p.into_u64).map (natAsU 32))

/-- `Value::to_u64`. -/
def Value.to_u64 (v : Value) : PRes (Option Nat) :=
  v.coerce (fun p => p.into_u64)

/-- `Value::to_isize`: `into_i64` then `v as isize` (identity on the
64-bit target). -/
def Value.to_isize (v : Value) : PRes (Option Int) :=
  v.coerce (fun p => p.into_i64)

/-- `Value::to_i8`: `into_i64` then `v as i8`. -/
def Value.to_i8 (v : Value) : PRes (Option Int) :=
  v.coerce (fun p => (p.into_i64).map (intAsI 8))

/-- `Value::to_i16`: `into_i64` then `v as i16`. -/
def Value.to_i16 (v : Value) : PRes (Option Int) :=
  v.coerce (fun p => (p.into_i64).map (intAsI 16))

/-- `Value::to_i32`: `into_i64` then `v as i32`. -/
def Value.to_i32 (v : Value) : PRes (Option Int) :=
  v.coerce (fun p => (p.into_i64).map (intAsI 32))

/-- `Value::to_i64`. -/
def Value.to_i64 (v : Value) : PRes (Option Int) :=
  v.coerce (fun p => p.into_i64)

/-- `Value::to_f32`: `into_f64` then `v as f32`. -/
def Value.to_f32 (v : Value) : PRes (Option Rat) :=
  v.coerce (fun p => (p.into_f64).map roundF32)

/-- `Value::to_f64`. -/
def Value.to_f64 (v : Value) : PRes (Option Rat) :=
  v.coerce (fun p => p.into_f64)

/-- `Value::to_bool`. -/
def Value.to_bool (v : Value) : PRes (Option Bool) :=
  v.coerce (fun p => p.into_bool)

/-- `Value::to_char`. -/
def Value.to_char (v : Value) : PRes (Option Char) :=
  v.coerce (fun p => p.into_char)

/-- `Value::to_borrowed_str`. -/
def Value.to_borrowed_str (v : Value) : PRes (Option String) :=
  v.coerce (fun p => p.into_borrowed_str)

/-! ## The formatting adapters (fmt.rs) -/

/-- The `DebugVisitor` inside `impl fmt::Debug for Value`: every scalar
formats with its own `Debug` implementation against the borrowed
formatter; `debug`/`display` forward to the erased value's
implementation; `borrowed_str` is the trait default (forwards to `str`);
`none` debug-formats the literal text `None`.  The state is the text
written to the formatter, whose flags `fl` are fixed for the whole pass. -/
def debugVisitor (fl : FmtFlags) : Visitor String where
  debug := fun b r => (b ++ r fl, true)
  display := fun b r => (b ++ r fl, true)
  u64 := fun b v => (b ++ padTo fl (toString v), true)
  i64 := fun b v => (b ++ padTo fl (toString v), true)
  f64 := fun b v => (b ++ padTo fl (toString v), true)
  bool := fun b v => (b ++ padTo fl (toString v), true)
  char := fun b v => (b ++ "'" ++ String.mk [v] ++ "'", true)
  str := fun b s => (b ++ "\"" ++ s ++ "\"", true)
  borrowed_str := fun b s => (b ++ "\"" ++ s ++ "\"", true)
  none := fun b => (b ++ "None", true)

/-- The `DisplayVisitor` inside `impl fmt::Display for Value`: as
`debugVisitor` but scalars format with their `Display` implementation
(`debug` still forwards to the value's `Debug`). -/
def displayVisitor (fl : FmtFlags) : Visitor String where
  debug := fun b r => (b ++ r fl, true)
  display := fun b r => (b ++ r fl, true)
  u64 := fun b v => (b ++ padTo fl (toString v), true)
  i64 := fun b v => (b ++ padTo fl (toString v), true)
  f64 := fun b v => (b ++ padTo fl (toString v), true)
  bool := fun b v => (b ++ padTo fl (toString v), true)
  char := fun b v => (b ++ String.mk [v], true)
  str := fun b s => (b ++ padTo fl s, true)
  borrowed_str := fun b s => (b ++ padTo fl s, true)
  none := fun b => (b ++ "None", true)

/-- `impl fmt::Debug for Value`: run the debug visitor over the value
against a formatter with flags `fl`; the text written and the outcome
(`Err` maps to `fmt::Error`, a `Fill` panic propagates). -/
def Value.fmtDebug (fl : FmtFlags) (v : Value) : String × Outcome :=
  v.inner.visit (debugVisitor fl) ""

/-- `impl fmt::Display for Value`. -/
def Value.fmtDisplay (fl : FmtFlags) (v : Value) : String × Outcome :=
  v.inner.visit (displayVisitor fl) ""

end LogKv

namespace LogKv

/-! ## Test instrumentation and literals -/

/-- A tag per `Visitor` method, for observing which method a dispatch
fires. -/
inductive MTag where
  | mDebug | mDisplay | mU64 | mI64 | mF64 | mBool | mChar | mStr | mBorrowedStr | mNone
  deriving DecidableEq

/-- The counting/labelling visitor of the spec's single-dispatch test:
every method (all defaults overridden) appends its own tag and succeeds. -/
def labelVisitor : Visitor (List MTag) where
  debug := fun l _ => (l ++ [.mDebug], true)
  display := fun l _ => (l ++ [.mDisplay], true)
  u64 := fun l _ => (l ++ [.mU64], true)
  i64 := fun l _ => (l ++ [.mI64], true)
  f64 := fun l _ => (l ++ [.mF64], true)
  bool := fun l _ => (l ++ [.mBool], true)
  char := fun l _ => (l ++ [.mChar], true)
  str := fun l _ => (l ++ [.mStr], true)
  borrowed_str := fun l _ => (l ++ [.mBorrowedStr], true)
  none := fun l => (l ++ [.mNone], true)

/-- A concrete finite `f32` (the value `1.5`), for exercising theorems
with `F32` inputs. -/
def f32OneHalfPlusOne : F32 := ⟨3, -1, by decide, by decide, by decide⟩

/-- The exact value of the Rust literal `1.9f64`:
`8556839292003942 * 2^-52 = 4278419646001971 / 2^51` in lowest terms. -/
def oneNineF64 : Rat :=
  Rat.mk' 4278419646001971 2251799813685248 (by norm_num) (by norm_num)

end LogKv

namespace LogKv

/-! ## Helper lemmas: round-to-nearest is the identity on representables -/

/-- Rounding an integer-valued rational to the nearest integer gives it
back. -/
theorem rneInt_intCast (z : Int) : rneInt (z : Rat) = z := by
  simp [rneInt]

theorem ratExp_lower {q : Rat} (hq : 0 < q) : 2 ^ (ratExp q - 1) ≤ q := by
  have hnum : 0 < q.num := Rat.num_pos.mpr hq
  set n : Nat := q.num.toNat with hn
  set d : Nat := q.den with hd
  have hn0 : n ≠ 0 := by
    simp only [hn]
    omega
  have hd0 : d ≠ 0 := q.den_nz
  set A : Nat := Nat.log2 n with hA
  set B : Nat := Nat.log2 d with hB
  have h1 : 2 ^ A ≤ n := Nat.log2_self_le hn0
  have h2 : d < 2 ^ (B + 1) := Nat.lt_log2_self
  -- cross-multiplied inequality, in Nat
  have hnpos : 0 < n := Nat.pos_of_ne_zero hn0
  have hcross : 2 ^ A * d < n * 2 ^ (B + 1) := by
    calc 2 ^ A * d ≤ n * d := Nat.mul_le_mul_right d h1
      _ < n * 2 ^ (B + 1) := mul_lt_mul_of_pos_left h2 hnpos
  have hncast : ((n : Nat) : Rat) = ((q.num : Int) : Rat) := by
    rw [hn]
    exact_mod_cast Int.toNat_of_nonneg (le_of_lt hnum)
  have hqeq : q = (n : Rat) / (d : Rat) := by
    rw [hncast, hd]
    exact (Rat.num_div_den q).symm
  have hdpos : (0 : Rat) < (d : Rat) := by positivity
  have key : (2 : Rat) ^ (((A : Int) - B) - 1) < q := by
    have hpow : (2 : Rat) ^ (((A : Int) - B) - 1) = (2 ^ A : Rat) / (2 ^ (B + 1) : Rat) := by
      rw [show ((A : Int) - B) - 1 = (A : Int) - ((B : Int) + 1) by ring]
      rw [zpow_sub₀ (by norm_num : (2 : Rat) ≠ 0)]
      norm_cast
    rw [hpow, hqeq, div_lt_div_iff₀ (by positivity) hdpos]
    calc ((2 : Rat) ^ A) * d = ((2 ^ A * d : Nat) : Rat) := by push_cast; ring
      _ < ((n * 2 ^ (B + 1) : Nat) : Rat) := by exact_mod_cast hcross
      _ = (n : Rat) * 2 ^ (B + 1) := by push_cast; ring
  simp only [ratExp, ← hn, ← hd, ← hA, ← hB]
  split
  · -- branch q < 2 ^ (A - B): result is A - B
    exact le_of_lt key
  · -- result is A - B + 1
    next h =>
      rw [show ((A : Int) - B + 1) - 1 = (A : Int) - B by ring]
      exact le_of_not_lt h

theorem roundFP_dyadic (prec : Nat) (emin : Int) (m E : Int)
    (hm : m.natAbs < 2 ^ prec) (hE : emin ≤ E) :
    roundFP prec emin ((m : Rat) * 2 ^ E) = (m : Rat) * 2 ^ E := by
  by_cases hm0 : m = 0
  · subst hm0
    simp [roundFP]
  set q : Rat := (m : Rat) * 2 ^ E with hq
  have h2E : (0 : Rat) < 2 ^ E := by positivity
  have hq0 : q ≠ 0 := by
    simp only [hq]
    exact mul_ne_zero (by exact_mod_cast hm0) (ne_of_gt h2E)
  have habs : |q| = ((m.natAbs : Nat) : Rat) * 2 ^ E := by
    rw [hq, abs_mul, abs_of_pos h2E, Int.cast_natAbs, Int.cast_abs]
  have habs_pos : 0 < |q| := abs_pos.mpr hq0
  -- ratExp |q| - prec ≤ E
  have hXE : ratExp |q| - prec ≤ E := by
    have hlow : 2 ^ (ratExp |q| - 1) ≤ |q| := ratExp_lower habs_pos
    have hup : |q| < 2 ^ ((prec : Int) + E) := by
      rw [habs, zpow_add₀ (by norm_num : (2 : Rat) ≠ 0), zpow_natCast]
      have : ((m.natAbs : Nat) : Rat) < (2 : Rat) ^ prec := by exact_mod_cast hm
      exact mul_lt_mul_of_pos_right this h2E
    have : (2 : Rat) ^ (ratExp |q| - 1) < 2 ^ ((prec : Int) + E) := lt_of_le_of_lt hlow hup
    have hexp : ratExp |q| - 1 < (prec : Int) + E :=
      (zpow_lt_zpow_iff_right₀ (by norm_num : (1 : Rat) < 2)).mp this
    omega
  set e : Int := max emin (ratExp |q| - prec) with he
  have heE : e ≤ E := max_le hE hXE
  -- q * 2 ^ (-e) is the integer m * 2 ^ (E - e)
  set z : Int := m * 2 ^ (E - e).toNat with hz
  have hscaled : q * 2 ^ (-e) = ((z : Int) : Rat) := by
    rw [hq, hz]
    push_cast
    rw [mul_assoc, ← zpow_natCast (2 : Rat) (E - e).toNat,
      Int.toNat_of_nonneg (by omega : (0 : Int) ≤ E - e),
      ← zpow_add₀ (by norm_num : (2 : Rat) ≠ 0)]
    have harith : E + -e = E - e := by omega
    rw [harith]
  have hfinal : ((z : Int) : Rat) * 2 ^ e = q := by
    rw [hz, hq]
    push_cast
    rw [mul_assoc, ← zpow_natCast (2 : Rat) (E - e).toNat,
      Int.toNat_of_nonneg (by omega : (0 : Int) ≤ E - e),
      ← zpow_add₀ (by norm_num : (2 : Rat) ≠ 0)]
    have harith : E - e + e = E := by omega
    rw [harith]
  simp only [roundFP, hq0, if_false, ← he, hscaled, rneInt_intCast]
  exact hfinal

/-- The `f64 -> f32` cast is the identity on (the exact values of)
finite `f32`s: widening then narrowing round-trips. -/
theorem roundF32_F32 (x : F32) : roundF32 x.toRat = x.toRat := by
  unfold roundF32 F32.toRat
  exact roundFP_dyadic 24 (-149) x.m x.e x.hm x.he₁

end LogKv

namespace LogKv

/-! ## Shared helper lemmas -/

/-- A lifted visitor-method result is never a panic. -/
theorem liftV_ne_panic {σ : Type} (r : σ × Bool) : (liftV r).2 ≠ .panic := by
  cases r with
  | mk s b => cases b <;> simp [liftV]

/-- Visiting a primitive never panics. -/
theorem primitive_visit_ne_panic {σ : Type} (p : Primitive) (vis : Visitor σ) (s : σ) :
    (p.visit vis s).2 ≠ .panic := by
  cases p <;> exact liftV_ne_panic _

/-- Visiting a non-`Fill` value never panics. -/
theorem basic_visit_ne_panic {σ : Type} (b : BasicInner) (vis : Visitor σ) (s : σ) :
    (b.visit vis s).2 ≠ .panic := by
  cases b with
  | prim p => exact primitive_visit_ne_panic p vis s
  | dbg tid v => exact liftV_ne_panic _
  | disp tid v => exact liftV_ne_panic _

/-- A single forwarded `fill_*` call never panics. -/
theorem FillArg.run_ne_panic {σ : Type} (c : FillArg) (vis : Visitor σ) (s : σ) :
    (c.run vis s).2 ≠ .panic := by
  cases c with
  | any b => exact basic_visit_ne_panic b vis s
  | fill_debug r => exact liftV_ne_panic _
  | fill_display r => exact liftV_ne_panic _

/-- A `Fill` callback that makes at most one `fill_*` call never reaches
the already-filled panic when started on a fresh slot. -/
theorem runFill_single_ne_panic {σ : Type} (c : FillArg) (ret : Bool) (vis : Visitor σ)
    (s : σ) : (runFill [c] ret vis false s).2 ≠ .panic := by
  have h := FillArg.run_ne_panic c vis s
  unfold runFill Slot.fill
  simp only [Bool.false_eq_true, if_false]
  rcases hr : c.run vis s with ⟨s', o⟩
  rw [hr] at h
  cases o with
  | ok => cases ret <;> simp [runFill]
  | err => simp
  | panic => exact absurd rfl h

/-- `Int.bmod x 256` is the identity on `[-128, 128)` (two's-complement
wrap is the identity in range). -/
theorem bmod_eq_self_256 (x : Int) (h1 : -128 ≤ x) (h2 : x < 128) :
    Int.bmod x 256 = x := by
  simp only [Int.bmod]
  norm_num
  split <;> omega

/-- `Int.bmod x 65536` is the identity on `[-32768, 32768)`. -/
theorem bmod_eq_self_65536 (x : Int) (h1 : -32768 ≤ x) (h2 : x < 32768) :
    Int.bmod x 65536 = x := by
  simp only [Int.bmod]
  norm_num
  split <;> omega

/-- `Int.bmod x (2^32)` is the identity on `[-2^31, 2^31)`. -/
theorem bmod_eq_self_2p32 (x : Int) (h1 : -(2 ^ 31) ≤ x) (h2 : x < 2 ^ 31) :
    Int.bmod x (2 ^ 32) = x := by
  simp only [Int.bmod]
  norm_num
  split <;> omega

end LogKv

namespace LogKv

/-- C2: cross-kind permissive numeric coercion.  For a captured signed
integer, unsigned integer or float primitive, every numeric coercion
succeeds and equals the composition of the native `as` casts the code
uses (`Primitive::into_u64`/`into_i64`/`into_f64` followed by the
narrowing cast); in particular `Value::from(-1i64).to_u32()` is
`Some(u32::MAX)` and `Value::from(1.9f64).to_i32()` is `Some(1)`
(truncation, not rounding); on negative doubles the cast truncates
toward zero and saturates — `Value::from(-1.9f64).to_i64()` is
`Some(-1)`, not the floor `-2`, and `to_u64()` saturates to `Some(0)`. -/
theorem c2_cross_kind_numeric_coercion :
    (∀ i : Int,
      Value.to_usize (Value.from_i64 i) = .res (some (i64_as_u64 i)) ∧
      Value.to_u8 (Value.from_i64 i) = .res (some (natAsU 8 (i64_as_u64 i))) ∧
      Value.to_u16 (Value.from_i64 i) = .res (some (natAsU 16 (i64_as_u64 i))) ∧
      Value.to_u32 (Value.from_i64 i) = .res (some (natAsU 32 (i64_as_u64 i))) ∧
      Value.to_u64 (Value.from_i64 i) = .res (some (i64_as_u64 i)) ∧
      Value.to_isize (Value.from_i64 i) = .res (some i) ∧
      Value.to_i8 (Value.from_i64 i) = .res (some (intAsI 8 i)) ∧
      Value.to_i16 (Value.from_i64 i) = .res (some (intAsI 16 i)) ∧
      Value.to_i32 (Value.from_i64 i) = .res (some (intAsI 32 i)) ∧
      Value.to_i64 (Value.from_i64 i) = .res (some i) ∧
      Value.to_f32 (Value.from_i64 i) = .res (some (roundF32 (i64_as_f64 i))) ∧
      Value.to_f64 (Value.from_i64 i) = .res (some (i64_as_f64 i))) ∧
    (∀ n : Nat,
      Value.to_usize (Value.from_u64 n) = .res (some n) ∧
      Value.to_u8 (Value.from_u64 n) = .res (some (natAsU 8 n)) ∧
      Value.to_u16 (Value.from_u64 n) = .res (some (natAsU 16 n)) ∧
      Value.to_u32 (Value.from_u64 n) = .res (some (natAsU 32 n)) ∧
      Value.to_u64 (Value.from_u64 n) = .res (some n) ∧
      Value.to_isize (Value.from_u64 n) = .res (some (u64_as_i64 n)) ∧
      Value.to_i8 (Value.from_u64 n) = .res (some (intAsI 8 (u64_as_i64 n))) ∧
      Value.to_i16 (Value.from_u64 n) = .res (some (intAsI 16 (u64_as_i64 n))) ∧
      Value.to_i32 (Value.from_u64 n) = .res (some (intAsI 32 (u64_as_i64 n))) ∧
      Value.to_i64 (Value.from_u64 n) = .res (some (u64_as_i64 n)) ∧
      Value.to_f32 (Value.from_u64 n) = .res (some (roundF32 (u64_as_f64 n))) ∧
      Value.to_f64 (Value.from_u64 n) = .res (some (u64_as_f64 n))) ∧
    (∀ q : Rat,
      Value.to_usize (Value.from_f64 q) = .res (some (f64_as_u64 q)) ∧
      Value.to_u8 (Value.from_f64 q) = .res (some (natAsU 8 (f64_as_u64 q))) ∧
      Value.to_u16 (Value.from_f64 q) = .res (some (natAsU 16 (f64_as_u64 q))) ∧
      Value.to_u32 (Value.from_f64 q) = .res (some (natAsU 32 (f64_as_u64 q))) ∧
      Value.to_u64 (Value.from_f64 q) = .res (some (f64_as_u64 q)) ∧
      Value.to_isize (Value.from_f64 q) = .res (some (f64_as_i64 q)) ∧
      Value.to_i8 (Value.from_f64 q) = .res (some (intAsI 8 (f64_as_i64 q))) ∧
      Value.to_i16 (Value.from_f64 q) = .res (some (intAsI 16 (f64_as_i64 q))) ∧
      Value.to_i32 (Value.from_f64 q) = .res (some (intAsI 32 (f64_as_i64 q))) ∧
      Value.to_i64 (Value.from_f64 q) = .res (some (f64_as_i64 q)) ∧
      Value.to_f32 (Value.from_f64 q) = .res (some (roundF32 q)) ∧
      Value.to_f64 (Value.from_f64 q) = .res (some q)) ∧
    Value.to_u32 (Value.from_i64 (-1)) = .res (some (2 ^ 32 - 1)) ∧
    Value.to_i32 (Value.from_f64 oneNineF64) = .res (some 1) ∧
    Value.to_i64 (Value.from_f64 (-oneNineF64)) = .res (some (-1)) ∧
    Value.to_u64 (Value.from_f64 (-oneNineF64)) = .res (some 0) := by
  refine ⟨fun i => ?_, fun n => ?_, fun q => ?_, by decide, by decide, by decide,
    by decide⟩ <;>
    exact ⟨rfl, rfl, rfl, rfl, rfl, rfl, rfl, rfl, rfl, rfl, rfl, rfl⟩

/-- C3: the one-shot `Slot` invariant.  On a fresh slot (`filled =
false`) each `fill_*` method sets the flag, forwards exactly one call to
the wrapped visitor and returns that call's result; on an already-filled
slot every `fill_*` method panics (the deterministic
"the slot has already been filled" assertion), for every callback. -/
theorem c3_slot_one_shot_fill {σ : Type} (vis : Visitor σ) (r : Renderer)
    (b : BasicInner) (s : σ) :
    (Slot.fill_any b vis false s = (true, b.visit vis s)) ∧
    (Slot.fill_debug r vis false s = (true, liftV (vis.debug s r))) ∧
    (Slot.fill_display r vis false s = (true, liftV (vis.display s r))) ∧
    (∀ f : σ → σ × Outcome, Slot.fill true f s = (true, s, .panic)) ∧
    (Slot.fill_any b vis true s = (true, s, .panic)) ∧
    (Slot.fill_debug r vis true s = (true, s, .panic)) ∧
    (Slot.fill_display r vis true s = (true, s, .panic)) :=
  ⟨rfl, rfl, rfl, fun _ => rfl, rfl, rfl, rfl⟩

/-- C7: a kind-mismatched coercion is absence, never an error or panic:
the numeric coercions on `Str`/`Bool`/`Char`/`Fmt`/`None` primitives,
`to_char`/`to_bool` on anything but exactly `Char`/`Bool`, and
`to_borrowed_str` on any non-`Str` primitive all return `Some`-free
results (`.res none`), and the value itself is immutable by
construction. -/
theorem c7_mismatch_coercion_is_none :
    (∀ s : String,
      Value.to_u64 (Value.from_str s) = .res none ∧
      Value.to_i64 (Value.from_str s) = .res none ∧
      Value.to_f64 (Value.from_str s) = .res none ∧
      Value.to_char (Value.from_str s) = .res none ∧
      Value.to_bool (Value.from_str s) = .res none) ∧
    (∀ b : Bool,
      Value.to_u64 (Value.from_bool b) = .res none ∧
      Value.to_i64 (Value.from_bool b) = .res none ∧
      Value.to_f64 (Value.from_bool b) = .res none ∧
      Value.to_char (Value.from_bool b) = .res none ∧
      Value.to_borrowed_str (Value.from_bool b) = .res none) ∧
    (∀ c : Char,
      Value.to_u64 (Value.from_char c) = .res none ∧
      Value.to_i64 (Value.from_char c) = .res none ∧
      Value.to_f64 (Value.from_char c) = .res none ∧
      Value.to_bool (Value.from_char c) = .res none ∧
      Value.to_borrowed_str (Value.from_char c) = .res none) ∧
    (∀ a : FmtArgs,
      Value.to_u64 (Value.from_fmt_args a) = .res none ∧
      Value.to_i64 (Value.from_fmt_args a) = .res none ∧
      Value.to_f64 (Value.from_fmt_args a) = .res none ∧
      Value.to_char (Value.from_fmt_args a) = .res none ∧
      Value.to_bool (Value.from_fmt_args a) = .res none ∧
      Value.to_borrowed_str (Value.from_fmt_args a) = .res none) ∧
    (Value.to_u64 ⟨.prim .NoneP⟩ = .res none ∧
      Value.to_i64 ⟨.prim .NoneP⟩ = .res none ∧
      Value.to_f64 ⟨.prim .NoneP⟩ = .res none ∧
      Value.to_char ⟨.prim .NoneP⟩ = .res none ∧
      Value.to_bool ⟨.prim .NoneP⟩ = .res none ∧
      Value.to_borrowed_str ⟨.prim .NoneP⟩ = .res none) ∧
    (∀ i : Int,
      Value.to_char (Value.from_i64 i) = .res none ∧
      Value.to_bool (Value.from_i64 i) = .res none ∧
      Value.to_borrowed_str (Value.from_i64 i) = .res none) ∧
    (∀ n : Nat,
      Value.to_char (Value.from_u64 n) = .res none ∧
      Value.to_bool (Value.from_u64 n) = .res none ∧
      Value.to_borrowed_str (Value.from_u64 n) = .res none) ∧
    (∀ q : Rat,
      Value.to_char (Value.from_f64 q) = .res none ∧
      Value.to_bool (Value.from_f64 q) = .res none ∧
      Value.to_borrowed_str (Value.from_f64 q) = .res none) :=
  ⟨fun _ => ⟨rfl, rfl, rfl, rfl, rfl⟩, fun _ => ⟨rfl, rfl, rfl, rfl, rfl⟩,
    fun _ => ⟨rfl, rfl, rfl, rfl, rfl⟩, fun _ => ⟨rfl, rfl, rfl, rfl, rfl, rfl⟩,
    ⟨rfl, rfl, rfl, rfl, rfl, rfl⟩, fun _ => ⟨rfl, rfl, rfl⟩,
    fun _ => ⟨rfl, rfl, rfl⟩, fun _ => ⟨rfl, rfl, rfl⟩⟩

/-- C9: `Option<T>` conversion.  `Some(x)` converts to a value that
visits exactly as `x`'s own conversion does; `None` converts to a value
that visits via `visitor.none()` and whose primitive coercions return
`None`; in particular `to_i32` gives `Some(5)` for `Some(5i32)` and
`None` for `Option::<i32>::None`. -/
theorem c9_option_conversion {α : Type} (f : α → Value) (x : α) :
    (∀ (σ : Type) (vis : Visitor σ) (s : σ),
      (Value.from_option f (some x)).inner.visit vis s = (f x).inner.visit vis s) ∧
    (∀ (σ : Type) (vis : Visitor σ) (s : σ),
      (Value.from_option f none).inner.visit vis s = liftV (vis.none s)) ∧
    ((Value.from_option f none).to_i32 = .res none ∧
      (Value.from_option f none).to_u64 = .res none ∧
      (Value.from_option f none).to_i64 = .res none ∧
      (Value.from_option f none).to_f64 = .res none ∧
      (Value.from_option f none).to_bool = .res none ∧
      (Value.from_option f none).to_char = .res none ∧
      (Value.from_option f none).to_borrowed_str = .res none) ∧
    (Value.from_option Value.from_i32 (some 5)).to_i32 = .res (some 5) ∧
    (Value.from_option Value.from_i32 none).to_i32 = .res none :=
  ⟨fun _ _ _ => rfl, fun _ _ _ => rfl, ⟨rfl, rfl, rfl, rfl, rfl, rfl, rfl⟩,
    by decide, rfl⟩

end LogKv

namespace LogKv

/-- C1: primitive round trip.  For every supported native scalar type,
converting a representable value into a `Value` and back through the
corresponding `to_*` coercion yields `Some` of the original value, and
the coercion takes the `Inner::Primitive` fast path without any visiting
or formatting pass (`castVisited = false`). -/
theorem c1_primitive_round_trip :
    (∀ n : Nat, n < 2 ^ 8 →
      Value.to_u8 (Value.from_u8 n) = .res (some n) ∧
      (Value.from_u8 n).inner.castVisited = false) ∧
    (∀ n : Nat, n < 2 ^ 16 →
      Value.to_u16 (Value.from_u16 n) = .res (some n) ∧
      (Value.from_u16 n).inner.castVisited = false) ∧
    (∀ n : Nat, n < 2 ^ 32 →
      Value.to_u32 (Value.from_u32 n) = .res (some n) ∧
      (Value.from_u32 n).inner.castVisited = false) ∧
    (∀ n : Nat,
      Value.to_u64 (Value.from_u64 n) = .res (some n) ∧
      (Value.from_u64 n).inner.castVisited = false) ∧
    (∀ n : Nat,
      Value.to_usize (Value.from_usize n) = .res (some n) ∧
      (Value.from_usize n).inner.castVisited = false) ∧
    (∀ i : Int, -(2 ^ 7) ≤ i → i < 2 ^ 7 →
      Value.to_i8 (Value.from_i8 i) = .res (some i) ∧
      (Value.from_i8 i).inner.castVisited = false) ∧
    (∀ i : Int, -(2 ^ 15) ≤ i → i < 2 ^ 15 →
      Value.to_i16 (Value.from_i16 i) = .res (some i) ∧
      (Value.from_i16 i).inner.castVisited = false) ∧
    (∀ i : Int, -(2 ^ 31) ≤ i → i < 2 ^ 31 →
      Value.to_i32 (Value.from_i32 i) = .res (some i) ∧
      (Value.from_i32 i).inner.castVisited = false) ∧
    (∀ i : Int,
      Value.to_i64 (Value.from_i64 i) = .res (some i) ∧
      (Value.from_i64 i).inner.castVisited = false) ∧
    (∀ i : Int,
      Value.to_isize (Value.from_isize i) = .res (some i) ∧
      (Value.from_isize i).inner.castVisited = false) ∧
    (∀ x : F32,
      Value.to_f32 (Value.from_f32 x) = .res (some x.toRat) ∧
      (Value.from_f32 x).inner.castVisited = false) ∧
    (∀ q : Rat,
      Value.to_f64 (Value.from_f64 q) = .res (some q) ∧
      (Value.from_f64 q).inner.castVisited = false) ∧
    (∀ b : Bool,
      Value.to_bool (Value.from_bool b) = .res (some b) ∧
      (Value.from_bool b).inner.castVisited = false) ∧
    (∀ c : Char,
      Value.to_char (Value.from_char c) = .res (some c) ∧
      (Value.from_char c).inner.castVisited = false) ∧
    (∀ s : String,
      Value.to_borrowed_str (Value.from_str s) = .res (some s) ∧
      (Value.from_str s).inner.castVisited = false) := by
  refine ⟨fun n h => ⟨?_, rfl⟩, fun n h => ⟨?_, rfl⟩, fun n h => ⟨?_, rfl⟩,
    fun n => ⟨rfl, rfl⟩, fun n => ⟨rfl, rfl⟩,
    fun i h1 h2 => ⟨?_, rfl⟩, fun i h1 h2 => ⟨?_, rfl⟩, fun i h1 h2 => ⟨?_, rfl⟩,
    fun i => ⟨rfl, rfl⟩, fun i => ⟨rfl, rfl⟩,
    fun x => ⟨?_, rfl⟩, fun q => ⟨rfl, rfl⟩, fun b => ⟨rfl, rfl⟩,
    fun c => ⟨rfl, rfl⟩, fun s => ⟨rfl, rfl⟩⟩
  · show PRes.res (some (natAsU 8 n)) = PRes.res (some n)
    rw [natAsU, Nat.mod_eq_of_lt h]
  · show PRes.res (some (natAsU 16 n)) = PRes.res (some n)
    rw [natAsU, Nat.mod_eq_of_lt h]
  · show PRes.res (some (natAsU 32 n)) = PRes.res (some n)
    rw [natAsU, Nat.mod_eq_of_lt h]
  · show PRes.res (some (intAsI 8 i)) = PRes.res (some i)
    rw [intAsI, show (2 : Nat) ^ 8 = 256 from rfl,
      bmod_eq_self_256 i (by exact_mod_cast h1) (by exact_mod_cast h2)]
  · show PRes.res (some (intAsI 16 i)) = PRes.res (some i)
    rw [intAsI, show (2 : Nat) ^ 16 = 65536 from rfl,
      bmod_eq_self_65536 i (by exact_mod_cast h1) (by exact_mod_cast h2)]
  · show PRes.res (some (intAsI 32 i)) = PRes.res (some i)
    rw [intAsI, bmod_eq_self_2p32 i h1 h2]
  · show PRes.res (some (roundF32 x.toRat)) = PRes.res (some x.toRat)
    rw [roundF32_F32]

/-- Witness for C1 at concrete inputs (3 for the narrow unsigned types,
-5 for the narrow signed ones, the `f32` value 1.5). -/
theorem c1_primitive_round_trip_witness :
    ((3 : Nat) < 2 ^ 8 ∧ Value.to_u8 (Value.from_u8 3) = .res (some 3)) ∧
    ((3 : Nat) < 2 ^ 16 ∧ Value.to_u16 (Value.from_u16 3) = .res (some 3)) ∧
    ((3 : Nat) < 2 ^ 32 ∧ Value.to_u32 (Value.from_u32 3) = .res (some 3)) ∧
    (-(2 ^ 7) ≤ (-5 : Int) ∧ (-5 : Int) < 2 ^ 7 ∧
      Value.to_i8 (Value.from_i8 (-5)) = .res (some (-5))) ∧
    (-(2 ^ 15) ≤ (-5 : Int) ∧ (-5 : Int) < 2 ^ 15 ∧
      Value.to_i16 (Value.from_i16 (-5)) = .res (some (-5))) ∧
    (-(2 ^ 31) ≤ (-5 : Int) ∧ (-5 : Int) < 2 ^ 31 ∧
      Value.to_i32 (Value.from_i32 (-5)) = .res (some (-5))) ∧
    Value.to_f32 (Value.from_f32 f32OneHalfPlusOne) =
      .res (some f32OneHalfPlusOne.toRat) :=
  ⟨⟨by decide, (c1_primitive_round_trip.1 3 (by decide)).1⟩,
    ⟨by decide, (c1_primitive_round_trip.2.1 3 (by decide)).1⟩,
    ⟨by decide, (c1_primitive_round_trip.2.2.1 3 (by decide)).1⟩,
    ⟨by decide, by decide,
      (c1_primitive_round_trip.2.2.2.2.2.1 (-5) (by decide) (by decide)).1⟩,
    ⟨by decide, by decide,
      (c1_primitive_round_trip.2.2.2.2.2.2.1 (-5) (by decide) (by decide)).1⟩,
    ⟨by decide, by decide,
      (c1_primitive_round_trip.2.2.2.2.2.2.2.1 (-5) (by decide) (by decide)).1⟩,
    (c1_primitive_round_trip.2.2.2.2.2.2.2.2.2.2.1 f32OneHalfPlusOne).1⟩

end LogKv

namespace LogKv

/-- C4 counterexample: a `Fill` value whose callback returns `Ok(())`
without ever filling the slot is a legal `Value`, and a single `visit`
of it invokes zero visitor methods — so "exactly one method, never
zero", quantified over every `Inner` variant including `Fill`, fails. -/
theorem c4_counterexample_zero_dispatch :
    (Value.from_fill [] true).inner.visit labelVisitor [] = ([], .ok) ∧
    ((Value.from_fill [] true).inner.visit labelVisitor []).1.length ≠ 1 :=
  ⟨rfl, by decide⟩

/-- C4 (amended): a single `visit` invokes exactly one visitor method,
exactly once, for every non-`Fill` value — each primitive kind dispatches
to its own method (`Str` arrives via `borrowed_str` rather than `str`,
`Fmt` via `debug`), `Debug`/`Display` to theirs — and for a `Fill` value
whose callback makes exactly one `fill_*` call; a `Fill` callback that
never fills invokes zero methods (see the counterexample). -/
theorem c4_visit_single_dispatch :
    (∀ (l : List MTag) (i : Int),
      Inner.visit (.prim (.Signed i)) labelVisitor l = (l ++ [.mI64], .ok)) ∧
    (∀ (l : List MTag) (n : Nat),
      Inner.visit (.prim (.Unsigned n)) labelVisitor l = (l ++ [.mU64], .ok)) ∧
    (∀ (l : List MTag) (q : Rat),
      Inner.visit (.prim (.Float q)) labelVisitor l = (l ++ [.mF64], .ok)) ∧
    (∀ (l : List MTag) (b : Bool),
      Inner.visit (.prim (.BoolP b)) labelVisitor l = (l ++ [.mBool], .ok)) ∧
    (∀ (l : List MTag) (ch : Char),
      Inner.visit (.prim (.CharP ch)) labelVisitor l = (l ++ [.mChar], .ok)) ∧
    (∀ (l : List MTag) (s : String),
      Inner.visit (.prim (.Str s)) labelVisitor l = (l ++ [.mBorrowedStr], .ok)) ∧
    (∀ (l : List MTag) (a : FmtArgs),
      Inner.visit (.prim (.Fmt a)) labelVisitor l = (l ++ [.mDebug], .ok)) ∧
    (∀ l : List MTag,
      Inner.visit (.prim .NoneP) labelVisitor l = (l ++ [.mNone], .ok)) ∧
    (∀ (l : List MTag) (tid : Option TypeId) (v : AnyVal),
      Inner.visit (.dbg tid v) labelVisitor l = (l ++ [.mDebug], .ok)) ∧
    (∀ (l : List MTag) (tid : Option TypeId) (v : AnyVal),
      Inner.visit (.disp tid v) labelVisitor l = (l ++ [.mDisplay], .ok)) ∧
    (∀ (l : List MTag) (c : FillArg) (ret : Bool),
      ((Value.from_fill [c] ret).inner.visit labelVisitor l).1.length = l.length + 1) := by
  refine ⟨fun _ _ => rfl, fun _ _ => rfl, fun _ _ => rfl, fun _ _ => rfl, fun _ _ => rfl,
    fun _ _ => rfl, fun _ _ => rfl, fun _ => rfl, fun _ _ _ => rfl, fun _ _ _ => rfl,
    fun l c ret => ?_⟩
  cases c with
  | any b =>
    cases b with
    | prim p =>
      cases p <;> cases ret <;>
        simp [Value.from_fill, Inner.visit, runFill, Slot.fill, FillArg.run,
          BasicInner.visit, Primitive.visit, labelVisitor, liftV]
    | dbg tid v =>
      cases ret <;>
        simp [Value.from_fill, Inner.visit, runFill, Slot.fill, FillArg.run,
          BasicInner.visit, labelVisitor, liftV]
    | disp tid v =>
      cases ret <;>
        simp [Value.from_fill, Inner.visit, runFill, Slot.fill, FillArg.run,
          BasicInner.visit, labelVisitor, liftV]
  | fill_debug r =>
    cases ret <;>
      simp [Value.from_fill, Inner.visit, runFill, Slot.fill, FillArg.run,
        labelVisitor, liftV]
  | fill_display r =>
    cases ret <;>
      simp [Value.from_fill, Inner.visit, runFill, Slot.fill, FillArg.run,
        labelVisitor, liftV]

/-- C5: downcast correctness.  A value of a non-primitive `'static` type
captured via `capture_debug`/`capture_display` downcasts back to exactly
its own type and to no other, and values built with the non-capturing
`from_debug`/`from_display` constructors never downcast to anything —
absence (`None`), never an error. -/
theorem c5_downcast_identity (t : Nat) (d p : Renderer) (u : TypeId)
    (hu : u ≠ .tCustom t) (w : AnyVal) :
    (Value.capture_debug (.custom t d p)).downcast_ref (.tCustom t) =
      some (.custom t d p) ∧
    (Value.capture_display (.custom t d p)).downcast_ref (.tCustom t) =
      some (.custom t d p) ∧
    (Value.capture_debug (.custom t d p)).downcast_ref u = none ∧
    (Value.capture_display (.custom t d p)).downcast_ref u = none ∧
    (∀ u' : TypeId, (Value.from_debug w).downcast_ref u' = none) ∧
    (∀ u' : TypeId, (Value.from_display w).downcast_ref u' = none) := by
  have hne : TypeId.tCustom t ≠ u := Ne.symm hu
  refine ⟨?_, ?_, ?_, ?_, fun u' => rfl, fun u' => rfl⟩ <;>
    simp [Value.capture_debug, Value.capture_display, try_from_primitive, from_any,
      AnyVal.typeId, Value.downcast_ref, hne]

/-- Witness for C5: a custom type with token 0 downcasts back to itself
and not to `u8`. -/
theorem c5_downcast_identity_witness :
    TypeId.tU8 ≠ TypeId.tCustom 0 ∧
    (Value.capture_debug (.custom 0 (fun _ => "W") (fun _ => "W"))).downcast_ref
      (.tCustom 0) = some (.custom 0 (fun _ => "W") (fun _ => "W")) ∧
    (Value.capture_debug (.custom 0 (fun _ => "W") (fun _ => "W"))).downcast_ref
      .tU8 = none :=
  ⟨by decide,
    (c5_downcast_identity 0 (fun _ => "W") (fun _ => "W") .tU8 (by decide)
      (.vBool true)).1,
    (c5_downcast_identity 0 (fun _ => "W") (fun _ => "W") .tU8 (by decide)
      (.vBool true)).2.2.1⟩

end LogKv

namespace LogKv

/-- C6: primitive short-circuit in `capture_*`.  For every value whose
concrete `'static` type is in the 30-entry table (the 15 primitive source
types and the `Option` of each), `capture_debug` and `capture_display`
produce the corresponding widened `Primitive` directly — the result
depends only on the payload, never on the type's `Debug`/`Display`
implementation, and any later primitive coercion takes the non-visiting
fast path (`castVisited = false`); for every other `'static` type they
fall back to the `Debug`/`Display`-tagged variants. -/
theorem c6_capture_primitive_short_circuit :
    (∀ n : Nat, Value.capture_debug (.vUsize n) = ⟨.prim (.Unsigned n)⟩ ∧
      Value.capture_display (.vUsize n) = ⟨.prim (.Unsigned n)⟩ ∧
      (Value.capture_debug (.vUsize n)).inner.castVisited = false ∧
      (Value.capture_display (.vUsize n)).inner.castVisited = false) ∧
    (∀ n : Nat, Value.capture_debug (.vU8 n) = ⟨.prim (.Unsigned n)⟩ ∧
      Value.capture_display (.vU8 n) = ⟨.prim (.Unsigned n)⟩ ∧
      (Value.capture_debug (.vU8 n)).inner.castVisited = false ∧
      (Value.capture_display (.vU8 n)).inner.castVisited = false) ∧
    (∀ n : Nat, Value.capture_debug (.vU16 n) = ⟨.prim (.Unsigned n)⟩ ∧
      Value.capture_display (.vU16 n) = ⟨.prim (.Unsigned n)⟩ ∧
      (Value.capture_debug (.vU16 n)).inner.castVisited = false ∧
      (Value.capture_display (.vU16 n)).inner.castVisited = false) ∧
    (∀ n : Nat, Value.capture_debug (.vU32 n) = ⟨.prim (.Unsigned n)⟩ ∧
      Value.capture_display (.vU32 n) = ⟨.prim (.Unsigned n)⟩ ∧
      (Value.capture_debug (.vU32 n)).inner.castVisited = false ∧
      (Value.capture_display (.vU32 n)).inner.castVisited = false) ∧
    (∀ n : Nat, Value.capture_debug (.vU64 n) = ⟨.prim (.Unsigned n)⟩ ∧
      Value.capture_display (.vU64 n) = ⟨.prim (.Unsigned n)⟩ ∧
      (Value.capture_debug (.vU64 n)).inner.castVisited = false ∧
      (Value.capture_display (.vU64 n)).inner.castVisited = false) ∧
    (∀ i : Int, Value.capture_debug (.vIsize i) = ⟨.prim (.Signed i)⟩ ∧
      Value.capture_display (.vIsize i) = ⟨.prim (.Signed i)⟩ ∧
      (Value.capture_debug (.vIsize i)).inner.castVisited = false ∧
      (Value.capture_display (.vIsize i)).inner.castVisited = false) ∧
    (∀ i : Int, Value.capture_debug (.vI8 i) = ⟨.prim (.Signed i)⟩ ∧
      Value.capture_display (.vI8 i) = ⟨.prim (.Signed i)⟩ ∧
      (Value.capture_debug (.vI8 i)).inner.castVisited = false ∧
      (Value.capture_display (.vI8 i)).inner.castVisited = false) ∧
    (∀ i : Int, Value.capture_debug (.vI16 i) = ⟨.prim (.Signed i)⟩ ∧
      Value.capture_display (.vI16 i) = ⟨.prim (.Signed i)⟩ ∧
      (Value.capture_debug (.vI16 i)).inner.castVisited = false ∧
      (Value.capture_display (.vI16 i)).inner.castVisited = false) ∧
    (∀ i : Int, Value.capture_debug (.vI32 i) = ⟨.prim (.Signed i)⟩ ∧
      Value.capture_display (.vI32 i) = ⟨.prim (.Signed i)⟩ ∧
      (Value.capture_debug (.vI32 i)).inner.castVisited = false ∧
      (Value.capture_display (.vI32 i)).inner.castVisited = false) ∧
    (∀ i : Int, Value.capture_debug (.vI64 i) = ⟨.prim (.Signed i)⟩ ∧
      Value.capture_display (.vI64 i) = ⟨.prim (.Signed i)⟩ ∧
      (Value.capture_debug (.vI64 i)).inner.castVisited = false ∧
      (Value.capture_display (.vI64 i)).inner.castVisited = false) ∧
    (∀ x : F32, Value.capture_debug (.vF32 x) = ⟨.prim (.Float x.toRat)⟩ ∧
      Value.capture_display (.vF32 x) = ⟨.prim (.Float x.toRat)⟩ ∧
      (Value.capture_debug (.vF32 x)).inner.castVisited = false ∧
      (Value.capture_display (.vF32 x)).inner.castVisited = false) ∧
    (∀ q : Rat, Value.capture_debug (.vF64 q) = ⟨.prim (.Float q)⟩ ∧
      Value.capture_display (.vF64 q) = ⟨.prim (.Float q)⟩ ∧
      (Value.capture_debug (.vF64 q)).inner.castVisited = false ∧
      (Value.capture_display (.vF64 q)).inner.castVisited = false) ∧
    (∀ c : Char, Value.capture_debug (.vChar c) = ⟨.prim (.CharP c)⟩ ∧
      Value.capture_display (.vChar c) = ⟨.prim (.CharP c)⟩ ∧
      (Value.capture_debug (.vChar c)).inner.castVisited = false ∧
      (Value.capture_display (.vChar c)).inner.castVisited = false) ∧
    (∀ b : Bool, Value.capture_debug (.vBool b) = ⟨.prim (.BoolP b)⟩ ∧
      Value.capture_display (.vBool b) = ⟨.prim (.BoolP b)⟩ ∧
      (Value.capture_debug (.vBool b)).inner.castVisited = false ∧
      (Value.capture_display (.vBool b)).inner.castVisited = false) ∧
    (∀ s : String, Value.capture_debug (.vStr s) = ⟨.prim (.Str s)⟩ ∧
      Value.capture_display (.vStr s) = ⟨.prim (.Str s)⟩ ∧
      (Value.capture_debug (.vStr s)).inner.castVisited = false ∧
      (Value.capture_display (.vStr s)).inner.castVisited = false) ∧
    (∀ o : Option Nat,
      Value.capture_debug (.vOptUsize o) = ⟨.prim (o.elim .NoneP .Unsigned)⟩ ∧
      Value.capture_display (.vOptUsize o) = ⟨.prim (o.elim .NoneP .Unsigned)⟩ ∧
      (Value.capture_debug (.vOptUsize o)).inner.castVisited = false) ∧
    (∀ o : Option Nat,
      Value.capture_debug (.vOptU8 o) = ⟨.prim (o.elim .NoneP .Unsigned)⟩ ∧
      Value.capture_display (.vOptU8 o) = ⟨.prim (o.elim .NoneP .Unsigned)⟩ ∧
      (Value.capture_debug (.vOptU8 o)).inner.castVisited = false) ∧
    (∀ o : Option Nat,
      Value.capture_debug (.vOptU16 o) = ⟨.prim (o.elim .NoneP .Unsigned)⟩ ∧
      Value.capture_display (.vOptU16 o) = ⟨.prim (o.elim .NoneP .Unsigned)⟩ ∧
      (Value.capture_debug (.vOptU16 o)).inner.castVisited = false) ∧
    (∀ o : Option Nat,
      Value.capture_debug (.vOptU32 o) = ⟨.prim (o.elim .NoneP .Unsigned)⟩ ∧
      Value.capture_display (.vOptU32 o) = ⟨.prim (o.elim .NoneP .Unsigned)⟩ ∧
      (Value.capture_debug (.vOptU32 o)).inner.castVisited = false) ∧
    (∀ o : Option Nat,
      Value.capture_debug (.vOptU64 o) = ⟨.prim (o.elim .NoneP .Unsigned)⟩ ∧
      Value.capture_display (.vOptU64 o) = ⟨.prim (o.elim .NoneP .Unsigned)⟩ ∧
      (Value.capture_debug (.vOptU64 o)).inner.castVisited = false) ∧
    (∀ o : Option Int,
      Value.capture_debug (.vOptIsize o) = ⟨.prim (o.elim .NoneP .Signed)⟩ ∧
      Value.capture_display (.vOptIsize o) = ⟨.prim (o.elim .NoneP .Signed)⟩ ∧
      (Value.capture_debug (.vOptIsize o)).inner.castVisited = false) ∧
    (∀ o : Option Int,
      Value.capture_debug (.vOptI8 o) = ⟨.prim (o.elim .NoneP .Signed)⟩ ∧
      Value.capture_display (.vOptI8 o) = ⟨.prim (o.elim .NoneP .Signed)⟩ ∧
      (Value.capture_debug (.vOptI8 o)).inner.castVisited = false) ∧
    (∀ o : Option Int,
      Value.capture_debug (.vOptI16 o) = ⟨.prim (o.elim .NoneP .Signed)⟩ ∧
      Value.capture_display (.vOptI16 o) = ⟨.prim (o.elim .NoneP .Signed)⟩ ∧
      (Value.capture_debug (.vOptI16 o)).inner.castVisited = false) ∧
    (∀ o : Option Int,
      Value.capture_debug (.vOptI32 o) = ⟨.prim (o.elim .NoneP .Signed)⟩ ∧
      Value.capture_display (.vOptI32 o) = ⟨.prim (o.elim .NoneP .Signed)⟩ ∧
      (Value.capture_debug (.vOptI32 o)).inner.castVisited = false) ∧
    (∀ o : Option Int,
      Value.capture_debug (.vOptI64 o) = ⟨.prim (o.elim .NoneP .Signed)⟩ ∧
      Value.capture_display (.vOptI64 o) = ⟨.prim (o.elim .NoneP .Signed)⟩ ∧
      (Value.capture_debug (.vOptI64 o)).inner.castVisited = false) ∧
    (∀ o : Option F32,
      Value.capture_debug (.vOptF32 o) =
        ⟨.prim (o.elim .NoneP (fun x => .Float x.toRat))⟩ ∧
      Value.capture_display (.vOptF32 o) =
        ⟨.prim (o.elim .NoneP (fun x => .Float x.toRat))⟩ ∧
      (Value.capture_debug (.vOptF32 o)).inner.castVisited = false) ∧
    (∀ o : Option Rat,
      Value.capture_debug (.vOptF64 o) = ⟨.prim (o.elim .NoneP .Float)⟩ ∧
      Value.capture_display (.vOptF64 o) = ⟨.prim (o.elim .NoneP .Float)⟩ ∧
      (Value.capture_debug (.vOptF64 o)).inner.castVisited = false) ∧
    (∀ o : Option Char,
      Value.capture_debug (.vOptChar o) = ⟨.prim (o.elim .NoneP .CharP)⟩ ∧
      Value.capture_display (.vOptChar o) = ⟨.prim (o.elim .NoneP .CharP)⟩ ∧
      (Value.capture_debug (.vOptChar o)).inner.castVisited = false) ∧
    (∀ o : Option Bool,
      Value.capture_debug (.vOptBool o) = ⟨.prim (o.elim .NoneP .BoolP)⟩ ∧
      Value.capture_display (.vOptBool o) = ⟨.prim (o.elim .NoneP .BoolP)⟩ ∧
      (Value.capture_debug (.vOptBool o)).inner.castVisited = false) ∧
    (∀ o : Option String,
      Value.capture_debug (.vOptStr o) = ⟨.prim (o.elim .NoneP .Str)⟩ ∧
      Value.capture_display (.vOptStr o) = ⟨.prim (o.elim .NoneP .Str)⟩ ∧
      (Value.capture_debug (.vOptStr o)).inner.castVisited = false) ∧
    (∀ (t : Nat) (d p : Renderer),
      Value.capture_debug (.custom t d p) =
        ⟨.dbg (some (.tCustom t)) (.custom t d p)⟩ ∧
      Value.capture_display (.custom t d p) =
        ⟨.disp (some (.tCustom t)) (.custom t d p)⟩) :=
  ⟨fun _ => ⟨rfl, rfl, rfl, rfl⟩, fun _ => ⟨rfl, rfl, rfl, rfl⟩,
    fun _ => ⟨rfl, rfl, rfl, rfl⟩, fun _ => ⟨rfl, rfl, rfl, rfl⟩,
    fun _ => ⟨rfl, rfl, rfl, rfl⟩, fun _ => ⟨rfl, rfl, rfl, rfl⟩,
    fun _ => ⟨rfl, rfl, rfl, rfl⟩, fun _ => ⟨rfl, rfl, rfl, rfl⟩,
    fun _ => ⟨rfl, rfl, rfl, rfl⟩, fun _ => ⟨rfl, rfl, rfl, rfl⟩,
    fun _ => ⟨rfl, rfl, rfl, rfl⟩, fun _ => ⟨rfl, rfl, rfl, rfl⟩,
    fun _ => ⟨rfl, rfl, rfl, rfl⟩, fun _ => ⟨rfl, rfl, rfl, rfl⟩,
    fun _ => ⟨rfl, rfl, rfl, rfl⟩,
    fun _ => ⟨rfl, rfl, rfl⟩, fun _ => ⟨rfl, rfl, rfl⟩, fun _ => ⟨rfl, rfl, rfl⟩,
    fun _ => ⟨rfl, rfl, rfl⟩, fun _ => ⟨rfl, rfl, rfl⟩, fun _ => ⟨rfl, rfl, rfl⟩,
    fun _ => ⟨rfl, rfl, rfl⟩, fun _ => ⟨rfl, rfl, rfl⟩, fun _ => ⟨rfl, rfl, rfl⟩,
    fun _ => ⟨rfl, rfl, rfl⟩, fun _ => ⟨rfl, rfl, rfl⟩, fun _ => ⟨rfl, rfl, rfl⟩,
    fun _ => ⟨rfl, rfl, rfl⟩, fun _ => ⟨rfl, rfl, rfl⟩, fun _ => ⟨rfl, rfl, rfl⟩,
    fun _ _ _ => ⟨rfl, rfl⟩⟩

end LogKv

namespace LogKv

/-- C8: debug-fallback formatting equality.  Formatting a
`from_debug`-captured value through the `Value`'s `Display`
implementation or its `Debug` implementation writes exactly the text of
the original value's own `Debug` implementation, with the formatter
flags passed through unchanged. -/
theorem c8_debug_fallback_formatting (v : AnyVal) (fl : FmtFlags) :
    Value.fmtDebug fl (Value.from_debug v) = (v.debugRender fl, .ok) ∧
    Value.fmtDisplay fl (Value.from_debug v) = (v.debugRender fl, .ok) :=
  ⟨rfl, rfl⟩

/-- Part of C10: `Inner::cast` on a single-fill `Fill` value never
panics, whatever primitive extraction follows. -/
theorem coerce_fill_single_ne_panic {α : Type} (f : Primitive → Option α)
    (c : FillArg) (ret : Bool) :
    Value.coerce f (Value.from_fill [c] ret) ≠ .panic := by
  show (match (Value.from_fill [c] ret).inner.cast with
    | (_, .panic) => PRes.panic
    | (cc, _) => PRes.res (f cc.into_primitive)) ≠ .panic
  rcases hv : runFill [c] ret castVisitor false (Cast.prim .NoneP) with ⟨cc, o⟩
  have hcast : (Value.from_fill [c] ret).inner.cast = (cc, o) := hv
  rw [hcast]
  have h := runFill_single_ne_panic c ret castVisitor (Cast.prim .NoneP)
  rw [hv] at h
  cases o with
  | panic => exact absurd rfl h
  | ok => simp
  | err => simp

/-- C10: a fresh one-shot `Slot` is created per `visit`, not per `Value`.
Every `visit` of a `from_fill` value re-invokes the callback with a slot
whose `filled` flag starts `false`, so a callback that fills exactly
once never hits the already-filled panic regardless of how many separate
coercions and formattings are run against the same `Value`, and every
repetition of the same visit yields the same non-panicking result. -/
theorem c10_fresh_slot_per_visit (c : FillArg) (ret : Bool) :
    (∀ (σ : Type) (vis : Visitor σ) (s : σ),
      (Value.from_fill [c] ret).inner.visit vis s = runFill [c] ret vis false s) ∧
    (∀ (σ : Type) (vis : Visitor σ) (s : σ),
      ((Value.from_fill [c] ret).inner.visit vis s).2 ≠ .panic) ∧
    (Value.from_fill [c] ret).to_u32 ≠ .panic ∧
    (Value.from_fill [c] ret).to_i64 ≠ .panic ∧
    (Value.from_fill [c] ret).to_f64 ≠ .panic ∧
    (Value.from_fill [c] ret).to_bool ≠ .panic ∧
    (Value.from_fill [c] ret).to_borrowed_str ≠ .panic ∧
    (∀ fl : FmtFlags, (Value.fmtDebug fl (Value.from_fill [c] ret)).2 ≠ .panic) ∧
    (∀ fl : FmtFlags, (Value.fmtDisplay fl (Value.from_fill [c] ret)).2 ≠ .panic) ∧
    (∀ (σ : Type) (vis : Visitor σ) (s : σ) (n : Nat),
      ∀ r ∈ List.replicate n ((Value.from_fill [c] ret).inner.visit vis s),
        r = runFill [c] ret vis false s ∧ r.2 ≠ .panic) := by
  refine ⟨fun _ _ _ => rfl, fun σ vis s => runFill_single_ne_panic c ret vis s,
    coerce_fill_single_ne_panic _ c ret, coerce_fill_single_ne_panic _ c ret,
    coerce_fill_single_ne_panic _ c ret, coerce_fill_single_ne_panic _ c ret,
    coerce_fill_single_ne_panic _ c ret,
    fun fl => runFill_single_ne_panic c ret (debugVisitor fl) "",
    fun fl => runFill_single_ne_panic c ret (displayVisitor fl) "",
    fun σ vis s n r hr => ?_⟩
  rw [List.eq_of_mem_replicate hr]
  exact ⟨rfl, runFill_single_ne_panic c ret vis s⟩

/-- Witness for C10 at a concrete single-fill callback. -/
theorem c10_fresh_slot_per_visit_witness :
    (Value.from_fill [.fill_debug (fun _ => "x")] true).to_u32 ≠ .panic ∧
    (Value.fmtDebug {} (Value.from_fill [.fill_debug (fun _ => "x")] true)).2 ≠
      .panic :=
  ⟨(c10_fresh_slot_per_visit (.fill_debug (fun _ => "x")) true).2.2.1,
    (c10_fresh_slot_per_visit (.fill_debug (fun _ => "x")) true).2.2.2.2.2.2.2.2.1 {}⟩

end LogKv

namespace LogKv

/-- Witness for C3 at a concrete renderer and formatter-backed visitor. -/
theorem c3_slot_one_shot_fill_witness :
    Slot.fill_debug (fun _ => "x") (debugVisitor {}) false "" =
      (true, liftV ((debugVisitor {}).debug "" (fun _ => "x"))) ∧
    Slot.fill_debug (fun _ => "x") (debugVisitor {}) true "" = (true, "", .panic) :=
  ⟨(c3_slot_one_shot_fill (debugVisitor {}) (fun _ => "x") (.prim .NoneP) "").2.1,
    (c3_slot_one_shot_fill (debugVisitor {}) (fun _ => "x")
      (.prim .NoneP) "").2.2.2.2.2.1⟩

/-- Witness for C8 at a concrete debug-only type. -/
theorem c8_debug_fallback_formatting_witness :
    Value.fmtDebug {} (Value.from_debug (.custom 0 (fun _ => "W") (fun _ => "w"))) =
      ("W", .ok) ∧
    Value.fmtDisplay {} (Value.from_debug (.custom 0 (fun _ => "W") (fun _ => "w"))) =
      ("W", .ok) :=
  ⟨(c8_debug_fallback_formatting (.custom 0 (fun _ => "W") (fun _ => "w")) {}).1,
    (c8_debug_fallback_formatting (.custom 0 (fun _ => "W") (fun _ => "w")) {}).2⟩

/-- Witness for C9 at `i32` and the value 5. -/
theorem c9_option_conversion_witness :
    (Value.from_option Value.from_i32 (some 5)).to_i32 = .res (some 5) ∧
    (Value.from_option Value.from_i32 none).to_i32 = .res none :=
  ⟨(c9_option_conversion Value.from_i32 5).2.2.2.1,
    (c9_option_conversion Value.from_i32 5).2.2.2.2⟩

end LogKv
